import Mathlib

/-!
Shallow embedding of src/postgresql/resource_postgresql_comment.go, the
comment resource of the terraform-provider-postgresql repository.

Modelling conventions:
* machine state is the catalog of stored comments, an association list from
  (object type, object name) to the stored description;
* executing the COMMENT statement built for (type, name, value) updates that
  catalog entry; PostgreSQL removes the catalog row when the comment is set
  to the empty string, so an empty value deletes the entry;
* the driver layer (startTransaction, Exec, QueryRow, Commit, deferredRollback)
  is modelled as always available; each operation returns the list of effects
  it performed so that transaction scoping and emitted SQL are observable;
* the feature gate db.featureSupported(featureComment) is a boolean field of
  the connection; the error wrapping done with fmt.Errorf around setComment
  failures is dropped, only the error kind is kept.
-/

/-- Error kinds surfaced by the comment resource code paths. -/
inductive CommentError where
  | unsupportedObjectType (t : String)
  | featureUnsupported (version : String)
  deriving DecidableEq, Repr

/-- Observable driver-level effects of one lifecycle operation, in order. -/
inductive Effect where
  | startTxn (database : String)
  | execSQL (database sql : String)
  | queryRow (database query param : String)
  | commit (database : String)
  deriving DecidableEq, Repr

/-- Connection handle: the feature gate for featureComment, the server version
string and the client database name, mirroring the fields of DBConnection the
comment resource reads. -/
structure DBConnection where
  featureSupported : Bool
  version : String
  clientDatabaseName : String
  deriving DecidableEq, Repr

/-- Resource data: the four declared attributes of the postgresql_comment
schema plus the computed id. -/
structure ResourceData where
  objectName : String
  objectType : String
  database : String
  comment : String
  id : String
  deriving DecidableEq, Repr

/-- Catalog of stored comments: (object type, object name) to description. -/
abbrev Catalog := List ((String × String) × String)

/-- Stored description of an object, when its catalog row exists. -/
def lookupCatalog (st : Catalog) (ty name : String) : Option String :=
  List.lookup (ty, name) st

/-- Effect of a committed COMMENT statement on the catalog: replace the entry;
an empty value removes the row, as PostgreSQL does. -/
def setCatalog (st : Catalog) (ty name value : String) : Catalog :=
  let rest := st.filter (fun e => !((ty, name) == e.1))
  if value = "" then rest else ((ty, name), value) :: rest

/-- Embedding of pq.QuoteIdentifier from the lib/pq driver used by the source:
truncate at the first NUL rune, double every double quote, wrap in double
quotes. -/
def QuoteIdentifier (name : String) : String :=
  let name := name.takeWhile (fun c => !(c == Char.ofNat 0))
  "\"" ++ name.replace "\"" "\"\"" ++ "\""

/-- Embedding of pq.QuoteLiteral from the lib/pq driver used by the source:
double every single quote; when a backslash is present, also double every
backslash and use the E-prefixed string form. -/
def QuoteLiteral (literal : String) : String :=
  let literal := literal.replace "\x27" "\x27\x27"
  if literal.contains (Char.ofNat 92) then
    " E\x27" ++ literal.replace "\\" "\\\\" ++ "\x27"
  else
    "\x27" ++ literal ++ "\x27"

/-- Allowed object types, as listed in commentAllowedObjectTypes. -/
def commentAllowedObjectTypes : List String := ["database", "table", "role"]

/-- Membership in commentAllowedObjectTypes. -/
def isSupportedObjectType (t : String) : Bool :=
  decide (t ∈ commentAllowedObjectTypes)

/-- Lookup query for database comments, as written in getComment. -/
def databaseLookupQuery : String :=
  "SELECT description FROM pg_catalog.pg_shdescription WHERE objoid = (SELECT oid FROM pg_database WHERE datname = $1);"

/-- Lookup query for role comments, as written in getComment. -/
def roleLookupQuery : String :=
  "SELECT description FROM pg_catalog.pg_shdescription WHERE objoid = (SELECT oid FROM pg_roles WHERE rolname = $1);"

/-- Lookup query for table comments, as written in getComment. -/
def tableLookupQuery : String :=
  "SELECT description FROM pg_catalog.pg_description WHERE objoid = (SELECT oid FROM pg_class WHERE relkind = \x27r\x27 and relname = $1);"

/-- Embedding of setComment: the switch on commentType picks the SQL keyword
and overrides the transaction database with the empty string for database and
role objects; unsupported types fail before any transaction or SQL; otherwise
the COMMENT ON statement is built with pq quoting, executed and committed. -/
def setComment (db : DBConnection) (st : Catalog)
    (commentDatabase commentType commentName commentValue : String) :
    Except CommentError (Catalog × List Effect) :=
  let resolved : Option (String × String) :=
    if commentType = "database" then some ("DATABASE", "")
    else if commentType = "role" then some ("ROLE", "")
    else if commentType = "table" then some ("TABLE", commentDatabase)
    else none
  match resolved with
  | none => Except.error (CommentError.unsupportedObjectType commentType)
  | some (commentTypeObject, database) =>
    let sql := "COMMENT ON " ++ commentTypeObject ++ " " ++ QuoteIdentifier commentName
      ++ " IS " ++ QuoteLiteral commentValue
    Except.ok (setCatalog st commentType commentName commentValue,
      [Effect.startTxn database, Effect.execSQL database sql, Effect.commit database])

/-- Embedding of getComment: a transaction is opened against commentDatabase,
the switch on commentType picks the catalog lookup query, unsupported types
fail, and a missing row yields the empty string instead of an error. -/
def getComment (db : DBConnection) (st : Catalog)
    (commentDatabase commentType commentName : String) :
    Except CommentError (String × List Effect) :=
  let queryOpt : Option String :=
    if commentType = "database" then some databaseLookupQuery
    else if commentType = "role" then some roleLookupQuery
    else if commentType = "table" then some tableLookupQuery
    else none
  match queryOpt with
  | none => Except.error (CommentError.unsupportedObjectType commentType)
  | some query =>
    let description := (lookupCatalog st commentType commentName).getD ""
    Except.ok (description,
      [Effect.startTxn commentDatabase, Effect.queryRow commentDatabase query commentName])

/-- Embedding of getDatabaseForComment: GetOk on the database attribute is
false exactly when the attribute holds its zero value, the empty string. -/
def getDatabaseForComment (d : ResourceData) (databaseName : String) : String :=
  if d.database ≠ "" then d.database else databaseName

/-- Embedding of generateCommentID: join of database name and object name. -/
def generateCommentID (d : ResourceData) (databaseName : String) : String :=
  databaseName ++ "." ++ d.objectName

/-- Embedding of resourcePostgreSQLCommentReadImpl: read the stored comment,
write it into the comment attribute and recompute the composite id. -/
def resourcePostgreSQLCommentReadImpl (db : DBConnection) (st : Catalog)
    (d : ResourceData) : Except CommentError (ResourceData × List Effect) :=
  let database := getDatabaseForComment d db.clientDatabaseName
  match getComment db st d.database d.objectType d.objectName with
  | Except.error e => Except.error e
  | Except.ok (description, eff) =>
    Except.ok (ResourceData.mk d.objectName d.objectType d.database description
      (generateCommentID d database), eff)

/-- Embedding of resourcePostgreSQLCommentCreate: feature gate first, then
setComment with the declared attributes, then the shared read path. -/
def resourcePostgreSQLCommentCreate (db : DBConnection) (st : Catalog)
    (d : ResourceData) : Except CommentError (Catalog × ResourceData × List Effect) :=
  if !db.featureSupported then
    Except.error (CommentError.featureUnsupported db.version)
  else
    match setComment db st d.database d.objectType d.objectName d.comment with
    | Except.error e => Except.error e
    | Except.ok (st1, eff1) =>
      match resourcePostgreSQLCommentReadImpl db st1 d with
      | Except.error e => Except.error e
      | Except.ok (d1, eff2) => Except.ok (st1, d1, eff1 ++ eff2)

/-- Embedding of resourcePostgreSQLCommentUpdate: identical shape to create. -/
def resourcePostgreSQLCommentUpdate (db : DBConnection) (st : Catalog)
    (d : ResourceData) : Except CommentError (Catalog × ResourceData × List Effect) :=
  if !db.featureSupported then
    Except.error (CommentError.featureUnsupported db.version)
  else
    match setComment db st d.database d.objectType d.objectName d.comment with
    | Except.error e => Except.error e
    | Except.ok (st1, eff1) =>
      match resourcePostgreSQLCommentReadImpl db st1 d with
      | Except.error e => Except.error e
      | Except.ok (d1, eff2) => Except.ok (st1, d1, eff1 ++ eff2)

/-- Embedding of resourcePostgreSQLCommentRead: feature gate, then the shared
read path. -/
def resourcePostgreSQLCommentRead (db : DBConnection) (st : Catalog)
    (d : ResourceData) : Except CommentError (ResourceData × List Effect) :=
  if !db.featureSupported then
    Except.error (CommentError.featureUnsupported db.version)
  else resourcePostgreSQLCommentReadImpl db st d

/-- Embedding of resourcePostgreSQLCommentExists: no feature gate; read the
stored description and compare it textually with the declared comment. -/
def resourcePostgreSQLCommentExists (db : DBConnection) (st : Catalog)
    (d : ResourceData) : Except CommentError Bool :=
  match getComment db st d.database d.objectType d.objectName with
  | Except.error e => Except.error e
  | Except.ok (description, _) =>
    if description ≠ d.comment then Except.ok false else Except.ok true

/-- Embedding of resourcePostgreSQLCommentDelete: the Go body opens with an
unconditional return nil, so the function succeeds immediately, performs no
effect and leaves catalog, attributes and id untouched; the statements after
that return are dead code, embedded separately as commentDeleteDeadCode. -/
def resourcePostgreSQLCommentDelete (db : DBConnection) (st : Catalog)
    (d : ResourceData) : Except CommentError (Catalog × ResourceData × List Effect) :=
  Except.ok (st, d, [])

/-- Embedding of the statements after the early return inside
resourcePostgreSQLCommentDelete, unreachable in the source: feature gate, then
setComment with the empty comment value, then SetId of the empty string. -/
def commentDeleteDeadCode (db : DBConnection) (st : Catalog)
    (d : ResourceData) : Except CommentError (Catalog × ResourceData × List Effect) :=
  if !db.featureSupported then
    Except.error (CommentError.featureUnsupported db.version)
  else
    match setComment db st d.database d.objectType d.objectName "" with
    | Except.error e => Except.error e
    | Except.ok (st1, eff) =>
      Except.ok (st1, ResourceData.mk d.objectName d.objectType d.database d.comment "", eff)

/-- Databases that startTransaction was asked to open, in order. -/
def txnDatabases (eff : List Effect) : List String :=
  eff.filterMap (fun e => match e with | Effect.startTxn database => some database | _ => none)

/-- SQL statements executed through Exec, in order. -/
def execStatements (eff : List Effect) : List String :=
  eff.filterMap (fun e => match e with | Effect.execSQL _ s => some s | _ => none)

lemma lookup_filter_self (k : String × String) (l : Catalog) :
    List.lookup k (l.filter (fun e => !(k == e.1))) = none := by
  induction l with
  | nil => rfl
  | cons a l ih =>
    obtain ⟨k1, v1⟩ := a
    by_cases h : k = k1
    · subst h
      simp [List.filter_cons, ih]
    · have hb : (k == k1) = false := beq_eq_false_iff_ne.mpr h
      simp [List.filter_cons, List.lookup, hb, ih]

lemma lookupCatalog_setCatalog_self (st : Catalog) (ty name value : String) :
    lookupCatalog (setCatalog st ty name value) ty name
      = if value = "" then none else some value := by
  by_cases h : value = ""
  · simp [lookupCatalog, setCatalog, h, lookup_filter_self]
  · simp [lookupCatalog, setCatalog, h, List.lookup]

lemma setCatalog_idem (st : Catalog) (ty name value : String) :
    setCatalog (setCatalog st ty name value) ty name value
      = setCatalog st ty name value := by
  by_cases h : value = ""
  · simp [setCatalog, h, List.filter_filter]
  · simp [setCatalog, h, List.filter_cons, List.filter_filter]

/-- Claim C3: the delete operation as implemented returns success without
performing any action: the result carries the unchanged catalog, the unchanged
resource data (so the id is untouched) and an empty effect list, for every
connection, so no SQL runs and the feature gate is never consulted; the
intended clearing logic survives only as the separate dead-code embedding. -/
theorem comment_delete_noop : ∀ (db : DBConnection) (st : Catalog) (d : ResourceData),
    resourcePostgreSQLCommentDelete db st d = Except.ok (st, d, []) :=
  fun _ _ _ => rfl

/-- Claim C4: database and role comment writes ignore the supplied database
and open their transaction against the default empty-name connection, while
table comment writes, and the comment read, open their transaction against
the specified database. -/
theorem comment_txn_scoping (db : DBConnection) (st : Catalog) (cdb name v : String) :
    ((setComment db st cdb "database" name v).map (fun r => txnDatabases r.2)
        = Except.ok [""]) ∧
    ((setComment db st cdb "role" name v).map (fun r => txnDatabases r.2)
        = Except.ok [""]) ∧
    ((setComment db st cdb "table" name v).map (fun r => txnDatabases r.2)
        = Except.ok [cdb]) ∧
    ((getComment db st cdb "table" name).map (fun r => txnDatabases r.2)
        = Except.ok [cdb]) :=
  ⟨rfl, rfl, rfl, rfl⟩

/-- Claim C5: for each supported object type the single executed statement is
exactly COMMENT ON KEYWORD followed by the identifier-quoted name, IS, and the
literal-quoted value, with keyword DATABASE, ROLE or TABLE respectively. -/
theorem comment_set_statement_form (db : DBConnection) (st : Catalog) (cdb name v : String) :
    ((setComment db st cdb "database" name v).map (fun r => execStatements r.2)
        = Except.ok ["COMMENT ON DATABASE " ++ QuoteIdentifier name ++ " IS " ++ QuoteLiteral v]) ∧
    ((setComment db st cdb "role" name v).map (fun r => execStatements r.2)
        = Except.ok ["COMMENT ON ROLE " ++ QuoteIdentifier name ++ " IS " ++ QuoteLiteral v]) ∧
    ((setComment db st cdb "table" name v).map (fun r => execStatements r.2)
        = Except.ok ["COMMENT ON TABLE " ++ QuoteIdentifier name ++ " IS " ++ QuoteLiteral v]) :=
  ⟨rfl, rfl, rfl⟩

/-- Claim C1, demonstration of the code bug: at a concrete input the delete
operation returns success immediately and the stored role comment survives
untouched, while the dead clearing path after the early return would have
removed it. -/
theorem comment_delete_bug_demo :
    resourcePostgreSQLCommentDelete (DBConnection.mk true "15.0" "postgres")
        [(("role", "demo"), "my role comment")]
        (ResourceData.mk "demo" "role" "postgres" "my role comment" "postgres.demo")
      = Except.ok ([(("role", "demo"), "my role comment")],
          ResourceData.mk "demo" "role" "postgres" "my role comment" "postgres.demo", []) ∧
    lookupCatalog [(("role", "demo"), "my role comment")] "role" "demo"
      = some "my role comment" ∧
    (commentDeleteDeadCode (DBConnection.mk true "15.0" "postgres")
        [(("role", "demo"), "my role comment")]
        (ResourceData.mk "demo" "role" "postgres" "my role comment" "postgres.demo")).map
        (fun r => lookupCatalog r.1 "role" "demo")
      = Except.ok none :=
  ⟨rfl, rfl, rfl⟩

/-- Claim C2, counterexample: with an empty catalog and a declared empty
comment, exists returns true although no catalog row is present, refuting
both that true requires a row to exist and that row absence yields false. -/
theorem comment_exists_no_row_counterexample :
    resourcePostgreSQLCommentExists (DBConnection.mk true "15.0" "postgres") []
        (ResourceData.mk "db1" "database" "postgres" "" "")
      = Except.ok true ∧
    lookupCatalog [] "database" "db1" = none :=
  ⟨rfl, rfl⟩

lemma supported_cases (t : String) (hT : isSupportedObjectType t = true) :
    t = "database" ∨ t = "table" ∨ t = "role" := by
  simpa [isSupportedObjectType, commentAllowedObjectTypes] using hT

lemma unsupported_cases (t : String) (hT : isSupportedObjectType t = false) :
    ¬t = "database" ∧ ¬t = "table" ∧ ¬t = "role" := by
  simpa [isSupportedObjectType, commentAllowedObjectTypes] using hT

lemma setComment_supported (db : DBConnection) (st : Catalog) (cdb ty name v : String)
    (hT : isSupportedObjectType ty = true) :
    ∃ eff, setComment db st cdb ty name v = Except.ok (setCatalog st ty name v, eff) := by
  rcases supported_cases ty hT with h | h | h <;> subst h <;> exact ⟨_, rfl⟩

lemma getComment_supported (db : DBConnection) (st : Catalog) (cdb ty name : String)
    (hT : isSupportedObjectType ty = true) :
    ∃ q, getComment db st cdb ty name
      = Except.ok ((lookupCatalog st ty name).getD "",
          [Effect.startTxn cdb, Effect.queryRow cdb q name]) := by
  rcases supported_cases ty hT with h | h | h <;> subst h
  · exact ⟨databaseLookupQuery, rfl⟩
  · exact ⟨tableLookupQuery, rfl⟩
  · exact ⟨roleLookupQuery, rfl⟩

lemma exists_eval_supported (db : DBConnection) (st : Catalog) (d : ResourceData)
    (hT : isSupportedObjectType d.objectType = true) :
    resourcePostgreSQLCommentExists db st d
      = Except.ok (((lookupCatalog st d.objectType d.objectName).getD "") == d.comment) := by
  obtain ⟨q, hq⟩ := getComment_supported db st d.database d.objectType d.objectName hT
  by_cases h : (lookupCatalog st d.objectType d.objectName).getD "" = d.comment <;>
    simp [resourcePostgreSQLCommentExists, hq, h]

lemma exists_eval_unsupported (db : DBConnection) (st : Catalog) (d : ResourceData)
    (hT : isSupportedObjectType d.objectType = false) :
    resourcePostgreSQLCommentExists db st d
      = Except.error (CommentError.unsupportedObjectType d.objectType) := by
  obtain ⟨h1, h2, h3⟩ := unsupported_cases d.objectType hT
  simp [resourcePostgreSQLCommentExists, getComment, h1, h2, h3]

lemma update_ok (db : DBConnection) (st : Catalog) (d : ResourceData)
    (hF : db.featureSupported = true) (hT : isSupportedObjectType d.objectType = true) :
    ∃ e1 e2, resourcePostgreSQLCommentUpdate db st d
      = Except.ok (setCatalog st d.objectType d.objectName d.comment,
          ResourceData.mk d.objectName d.objectType d.database
            ((lookupCatalog (setCatalog st d.objectType d.objectName d.comment)
                d.objectType d.objectName).getD "")
            (generateCommentID d (getDatabaseForComment d db.clientDatabaseName)),
          e1 ++ e2) := by
  obtain ⟨e1, h1⟩ := setComment_supported db st d.database d.objectType d.objectName d.comment hT
  obtain ⟨q, h2⟩ := getComment_supported db
    (setCatalog st d.objectType d.objectName d.comment) d.database d.objectType d.objectName hT
  refine ⟨e1, [Effect.startTxn d.database, Effect.queryRow d.database q d.objectName], ?_⟩
  simp [resourcePostgreSQLCommentUpdate, resourcePostgreSQLCommentReadImpl, hF, h1, h2]

/-- Claim C2, amended: for a supported object type, exists returns ok of the
textual comparison between the stored description, read as the empty string
when no catalog row exists, and the declared comment; hence out-of-band drift
yields false even though the row exists, and row absence yields false exactly
when the declared comment is nonempty (with a declared empty comment a missing
row still compares equal). -/
theorem comment_exists_amended (db : DBConnection) (st : Catalog) (d : ResourceData)
    (hT : isSupportedObjectType d.objectType = true) :
    (resourcePostgreSQLCommentExists db st d
      = Except.ok (((lookupCatalog st d.objectType d.objectName).getD "") == d.comment)) ∧
    (∀ stored, lookupCatalog st d.objectType d.objectName = some stored → stored ≠ d.comment →
      resourcePostgreSQLCommentExists db st d = Except.ok false) ∧
    (lookupCatalog st d.objectType d.objectName = none → d.comment ≠ "" →
      resourcePostgreSQLCommentExists db st d = Except.ok false) := by
  have hmain := exists_eval_supported db st d hT
  refine ⟨hmain, ?_, ?_⟩
  · intro stored hs hne
    rw [hmain, hs]
    simp [hne]
  · intro hn hne
    rw [hmain, hn]
    simp [Ne.symm hne]

theorem comment_exists_amended_witness :
    resourcePostgreSQLCommentExists (DBConnection.mk true "15.0" "postgres")
        [(("role", "demo"), "my role comment")]
        (ResourceData.mk "demo" "role" "postgres" "declared value" "")
      = Except.ok (((lookupCatalog [(("role", "demo"), "my role comment")] "role" "demo").getD "")
          == "declared value") :=
  (comment_exists_amended (DBConnection.mk true "15.0" "postgres")
    [(("role", "demo"), "my role comment")]
    (ResourceData.mk "demo" "role" "postgres" "declared value" "") (by decide)).1

/-- Claim C6: any object type outside database, role and table makes both the
statement-building path and the lookup-query path fail with the
unsupported-object-type error, producing no SQL. -/
theorem comment_unsupported_type_error (db : DBConnection) (st : Catalog)
    (cdb t name v : String) (hT : isSupportedObjectType t = false) :
    setComment db st cdb t name v = Except.error (CommentError.unsupportedObjectType t) ∧
    getComment db st cdb t name = Except.error (CommentError.unsupportedObjectType t) := by
  obtain ⟨h1, h2, h3⟩ := unsupported_cases t hT
  constructor <;> simp [setComment, getComment, h1, h2, h3]

theorem comment_unsupported_type_error_witness :
    setComment (DBConnection.mk true "15.0" "postgres") [] "postgres" "schema" "s1" "c"
      = Except.error (CommentError.unsupportedObjectType "schema") ∧
    getComment (DBConnection.mk true "15.0" "postgres") [] "postgres" "schema" "s1"
      = Except.error (CommentError.unsupportedObjectType "schema") :=
  comment_unsupported_type_error (DBConnection.mk true "15.0" "postgres") []
    "postgres" "schema" "s1" "c" (by decide)

/-- Claim C7: for a supported object type whose catalog row is absent, the read
implementation succeeds and writes the empty string into the observed comment
attribute; row absence is never surfaced as an error. -/
theorem comment_read_absent_row (db : DBConnection) (st : Catalog) (d : ResourceData)
    (hT : isSupportedObjectType d.objectType = true)
    (hA : lookupCatalog st d.objectType d.objectName = none) :
    ∃ eff, resourcePostgreSQLCommentReadImpl db st d
      = Except.ok (ResourceData.mk d.objectName d.objectType d.database ""
          (generateCommentID d (getDatabaseForComment d db.clientDatabaseName)), eff) := by
  obtain ⟨q, hq⟩ := getComment_supported db st d.database d.objectType d.objectName hT
  rw [hA] at hq
  refine ⟨[Effect.startTxn d.database, Effect.queryRow d.database q d.objectName], ?_⟩
  simp [resourcePostgreSQLCommentReadImpl, hq]

theorem comment_read_absent_row_witness :
    ∃ eff, resourcePostgreSQLCommentReadImpl (DBConnection.mk true "15.0" "postgres") []
        (ResourceData.mk "table1" "table" "my_database" "c" "")
      = Except.ok (ResourceData.mk "table1" "table" "my_database" ""
          (generateCommentID (ResourceData.mk "table1" "table" "my_database" "c" "")
            (getDatabaseForComment (ResourceData.mk "table1" "table" "my_database" "c" "")
              "postgres")), eff) :=
  comment_read_absent_row (DBConnection.mk true "15.0" "postgres") []
    (ResourceData.mk "table1" "table" "my_database" "c" "") (by decide) rfl

/-- Claim C8: with the comment feature unsupported by the server version, the
create, read and update operations all fail with the feature-unsupported error
carrying the server version; the gate sits before setComment and getComment,
so the error result carries no catalog change and no effect. -/
theorem comment_feature_gate (db : DBConnection) (st : Catalog) (d : ResourceData)
    (hF : db.featureSupported = false) :
    resourcePostgreSQLCommentCreate db st d
      = Except.error (CommentError.featureUnsupported db.version) ∧
    resourcePostgreSQLCommentRead db st d
      = Except.error (CommentError.featureUnsupported db.version) ∧
    resourcePostgreSQLCommentUpdate db st d
      = Except.error (CommentError.featureUnsupported db.version) := by
  simp [resourcePostgreSQLCommentCreate, resourcePostgreSQLCommentRead,
    resourcePostgreSQLCommentUpdate, hF]

theorem comment_feature_gate_witness :
    resourcePostgreSQLCommentCreate (DBConnection.mk false "8.4" "postgres") []
        (ResourceData.mk "db1" "database" "postgres" "c" "")
      = Except.error (CommentError.featureUnsupported "8.4") :=
  (comment_feature_gate (DBConnection.mk false "8.4" "postgres") []
    (ResourceData.mk "db1" "database" "postgres" "c" "") rfl).1

/-- Claim C9: with the feature supported and a supported object type, running
update twice with the same declared comment succeeds both times, the second
run returns the catalog of the first unchanged, the stored comment reads back
as the declared value, exists returns true afterwards, and the resource data
produced by the two runs agree. -/
theorem comment_update_idempotent (db : DBConnection) (st : Catalog) (d : ResourceData)
    (hF : db.featureSupported = true) (hT : isSupportedObjectType d.objectType = true) :
    ∃ st1 d1 e1 d2 e2,
      resourcePostgreSQLCommentUpdate db st d = Except.ok (st1, d1, e1) ∧
      resourcePostgreSQLCommentUpdate db st1 d = Except.ok (st1, d2, e2) ∧
      (lookupCatalog st1 d.objectType d.objectName).getD "" = d.comment ∧
      resourcePostgreSQLCommentExists db st1 d = Except.ok true ∧
      d2 = d1 := by
  obtain ⟨e1, e2, h1⟩ := update_ok db st d hF hT
  obtain ⟨e3, e4, h2⟩ := update_ok db (setCatalog st d.objectType d.objectName d.comment) d hF hT
  rw [setCatalog_idem] at h2
  have hlook : (lookupCatalog (setCatalog st d.objectType d.objectName d.comment)
      d.objectType d.objectName).getD "" = d.comment := by
    rw [lookupCatalog_setCatalog_self]
    by_cases h : d.comment = "" <;> simp [h]
  have hex : resourcePostgreSQLCommentExists db
      (setCatalog st d.objectType d.objectName d.comment) d = Except.ok true := by
    rw [exists_eval_supported db _ d hT, hlook]
    simp
  exact ⟨_, _, _, _, _, h1, h2, hlook, hex, rfl⟩

theorem comment_update_idempotent_witness :
    ∃ st1 d1 e1 d2 e2,
      resourcePostgreSQLCommentUpdate (DBConnection.mk true "15.0" "postgres") []
          (ResourceData.mk "db1" "database" "postgres" "hello" "") = Except.ok (st1, d1, e1) ∧
      resourcePostgreSQLCommentUpdate (DBConnection.mk true "15.0" "postgres") st1
          (ResourceData.mk "db1" "database" "postgres" "hello" "") = Except.ok (st1, d2, e2) ∧
      (lookupCatalog st1 "database" "db1").getD "" = "hello" ∧
      resourcePostgreSQLCommentExists (DBConnection.mk true "15.0" "postgres") st1
          (ResourceData.mk "db1" "database" "postgres" "hello" "") = Except.ok true ∧
      d2 = d1 :=
  comment_update_idempotent (DBConnection.mk true "15.0" "postgres") []
    (ResourceData.mk "db1" "database" "postgres" "hello" "") rfl (by decide)

/-- Claim C10: exists consults no feature gate: its result is invariant under
the feature flag of the connection, and its outcome is always either the
textual comparison of stored and declared comment or the
unsupported-object-type error, never the feature-unsupported error that
create, read and update raise on old servers. -/
theorem comment_exists_skips_feature_gate (db : DBConnection) (st : Catalog) (d : ResourceData) :
    (∀ b, resourcePostgreSQLCommentExists (DBConnection.mk b db.version db.clientDatabaseName) st d
        = resourcePostgreSQLCommentExists db st d) ∧
    (resourcePostgreSQLCommentExists db st d
        = Except.ok (((lookupCatalog st d.objectType d.objectName).getD "") == d.comment) ∨
     resourcePostgreSQLCommentExists db st d
        = Except.error (CommentError.unsupportedObjectType d.objectType)) := by
  constructor
  · intro b
    rfl
  · by_cases hT : isSupportedObjectType d.objectType = true
    · exact Or.inl (exists_eval_supported db st d hT)
    · exact Or.inr (exists_eval_unsupported db st d (by simpa using hT))
